import Mathlib

/-!
Shallow embedding of the authentication/session core of the ee-app repository:
the Directus API client (`getApiBaseUrl`, `buildUrl`, `getDefaultHeaders`,
`handleResponse`, `apiClient`, the localStorage-backed token store) and the
auth service (`login`, `logout`, `refreshToken`, `getCurrentUser`,
`isAuthenticated`, `extractErrorMessage`).

Modelling conventions:
- JavaScript dynamic values are modelled by `Json` / `JsVal` (`none` plays the
  role of `undefined`, `some .null` of JS `null`).
- Thrown JS errors are modelled by `Except`; an ApiError-shaped error (an
  `Error` object carrying `status` / `statusText` / `data` fields, which is
  what the api-client's duck check `error instanceof Error && 'status' in
  error` recognises) is the `JsError.apiError` constructor. The auth
  service's `error instanceof ApiError` checks are different: `ApiError` is a
  TypeScript interface exported type-only from the api-client, so the binding
  the auth service imports has no runtime value, and every evaluation of
  `instanceof` against it throws a TypeError (`instanceofUndefinedMessage`).
- The browser environment (`typeof window`), localStorage and its failure mode
  are the explicit `TokenStore` state; every store operation is a pure state
  transformer translated from the source.
- The network is an oracle `Nat → FetchOutcome` threaded through `NetState`,
  which also records the trace of requests actually issued, so "issues no
  network request" is expressible.
- Fetch body streams are single-use, as in the WHATWG fetch specification: a
  `Response` body can be consumed once; `response.json()` consumes the body
  even when JSON parsing then fails, so a subsequent `response.text()` on the
  same response rejects with a TypeError ("body stream already read").
-/

namespace EEApp

/-- JSON values (numbers restricted to integers, which covers every value the
modelled code paths construct or inspect). -/
inductive Json where
  | null
  | bool (b : Bool)
  | num (n : Int)
  | str (s : String)
  | arr (elems : List Json)
  | obj (fields : List (String × Json))
deriving Repr, BEq

/-- A JavaScript value in expression position: `none` is `undefined`,
`some j` a JSON-representable value (`some .null` being JS `null`). -/
abbrev JsVal := Option Json

/-- JS truthiness of a JSON-representable value. -/
def jsTruthy : Json → Bool
  | .null => false
  | .bool b => b
  | .num n => n != 0
  | .str s => s != ""
  | .arr _ => true
  | .obj _ => true

/-- JS truthiness of a value (`undefined` is falsy). -/
def jsValTruthy : JsVal → Bool
  | none => false
  | some j => jsTruthy j

mutual
/-- JS `String(v)` coercion of a JSON-representable value. -/
def jsStringOf : Json → String
  | .null => "null"
  | .bool b => cond b "true" "false"
  | .num n => toString n
  | .str s => s
  | .arr xs => jsJoinList xs
  | .obj _ => "[object Object]"

/-- Array-to-string coercion: elements stringified and joined by commas. -/
def jsJoinList : List Json → String
  | [] => ""
  | [j] => jsJoinOne j
  | j :: js => jsJoinOne j ++ "," ++ jsJoinList js

/-- An array element stringified inside `Array.prototype.toString`
(`null` becomes the empty string there). -/
def jsJoinOne : Json → String
  | .null => ""
  | .bool b => cond b "true" "false"
  | .num n => toString n
  | .str s => s
  | .arr xs => jsJoinList xs
  | .obj _ => "[object Object]"
end

/-- JS `String(v)` of a possibly-`undefined` value. -/
def jsStringOfVal : JsVal → String
  | none => "undefined"
  | some j => jsStringOf j

/-- Message of the `Error` built by `new Error(v)`: `new Error(undefined)` has
an empty message, any other argument is coerced with `String(v)`. -/
def jsErrMsgOf : JsVal → String
  | none => ""
  | some j => jsStringOf j

/-- Property access `j.f` on a value already known to be neither `null` nor
`undefined`: object fields by lookup, `length` on arrays and strings, and
`undefined` otherwise. -/
def jsPropNN (j : Json) (f : String) : JsVal :=
  match j with
  | .obj fs => (fs.find? (fun p => p.1 == f)).map (·.2)
  | .arr xs => if f == "length" then some (.num (xs.length : Int)) else none
  | .str s => if f == "length" then some (.num (s.length : Int)) else none
  | _ => none

/-- Plain property access `v.f`: throws a TypeError on `null` / `undefined`. -/
def jsProp (v : JsVal) (f : String) : Except String JsVal :=
  match v with
  | none => .error ("Cannot read properties of undefined (reading " ++ f ++ ")")
  | some .null => .error ("Cannot read properties of null (reading " ++ f ++ ")")
  | some j => .ok (jsPropNN j f)

/-- Optional-chaining access `v?.f`. -/
def jsPropOpt (v : JsVal) (f : String) : JsVal :=
  match v with
  | none => none
  | some .null => none
  | some j => jsPropNN j f

/-- Index access `j[i]` on a value known to be neither `null` nor `undefined`:
array element, single-character string for strings, `undefined` otherwise. -/
def jsIndexNN (j : Json) (i : Nat) : JsVal :=
  match j with
  | .arr xs => xs.get? i
  | .str s => (s.toList.get? i).map (fun c => .str (String.singleton c))
  | _ => none

/-- Optional-chaining index access `v?.[i]`. -/
def jsIndexOpt (v : JsVal) (i : Nat) : JsVal :=
  match v with
  | none => none
  | some .null => none
  | some j => jsIndexNN j i

/-- Whether `typeof v === 'object'` holds (`null`, arrays and plain objects). -/
def jsTypeofObject : JsVal → Bool
  | some .null => true
  | some (.obj _) => true
  | some (.arr _) => true
  | _ => false

/-- Whether the value is JS `null` (the strict comparison `v !== null`
negated). -/
def jsIsNull : JsVal → Bool
  | some .null => true
  | _ => false

/-- The check `v && v.length > 0` performed on a candidate errors array:
only arrays and strings have a numeric `length`; `undefined > 0` is false. -/
def jsLenPos : JsVal → Bool
  | some (.arr xs) => xs.length != 0
  | some (.str s) => s.length != 0
  | _ => false

/-! ## Token store (localStorage-backed, from the api-client source) -/

/-- Key under which the access token is persisted. -/
def ACCESS_TOKEN_KEY : String := "directus_access_token"

/-- Key under which the refresh token is persisted. -/
def REFRESH_TOKEN_KEY : String := "directus_refresh_token"

/-- The browser-side persistent state the token functions act on:
whether `typeof window !== 'undefined'`, whether localStorage operations
throw (storage disabled), and the stored key/value pairs. -/
structure TokenStore where
  hasWindow : Bool
  storageFails : Bool
  items : List (String × String)
deriving Repr, DecidableEq

/-- `localStorage.getItem`: first binding of the key, `null` when absent. -/
def lsGetItem (items : List (String × String)) (k : String) : Option String :=
  (items.find? (fun p => p.1 == k)).map (·.2)

/-- `localStorage.setItem`: overwrite the binding of the key, or append it. -/
def lsSetItem (items : List (String × String)) (k v : String) :
    List (String × String) :=
  if items.any (fun p => p.1 == k) then
    items.map (fun p => if p.1 == k then (k, v) else p)
  else items ++ [(k, v)]

/-- `localStorage.removeItem`. -/
def lsRemoveItem (items : List (String × String)) (k : String) :
    List (String × String) :=
  items.filter (fun p => p.1 != k)

/-- `setAuthToken` from the api-client: stores the access token when a window
exists, silently no-ops (logging only) when storage throws. -/
def setAuthToken (s : TokenStore) (token : String) : TokenStore :=
  if s.hasWindow then
    if s.storageFails then s
    else { s with items := lsSetItem s.items ACCESS_TOKEN_KEY token }
  else s

/-- `setRefreshToken` from the api-client. -/
def setRefreshToken (s : TokenStore) (token : String) : TokenStore :=
  if s.hasWindow then
    if s.storageFails then s
    else { s with items := lsSetItem s.items REFRESH_TOKEN_KEY token }
  else s

/-- `getAuthToken` from the api-client: `null` outside a browser, `null` when
storage throws, otherwise the stored value. -/
def getAuthToken (s : TokenStore) : Option String :=
  if !s.hasWindow then none
  else if s.storageFails then none
  else lsGetItem s.items ACCESS_TOKEN_KEY

/-- `getRefreshToken` from the api-client. -/
def getRefreshToken (s : TokenStore) : Option String :=
  if !s.hasWindow then none
  else if s.storageFails then none
  else lsGetItem s.items REFRESH_TOKEN_KEY

/-- `getStoredAuthToken`, the api-client-internal reader used when building
default headers; its body is textually identical to `getAuthToken`. -/
def getStoredAuthToken (s : TokenStore) : Option String :=
  getAuthToken s

/-- `clearAuthTokens` from the api-client: removes both keys when a window
exists, silently no-ops when storage throws. -/
def clearAuthTokens (s : TokenStore) : TokenStore :=
  if s.hasWindow then
    if s.storageFails then s
    else { s with
           items := lsRemoveItem (lsRemoveItem s.items ACCESS_TOKEN_KEY)
             REFRESH_TOKEN_KEY }
  else s

/-! ## HTTP responses and response handling -/

/-- An HTTP response as observed by the client: status line, declared content
type, and the body both as raw text and as the result of attempting
`JSON.parse` on it (`none` when the body is not valid JSON). -/
structure HttpResponse where
  status : Nat
  statusText : String
  contentType : Option String
  bodyText : String
  bodyJson : Option Json
deriving Repr, BEq

/-- `response.ok`: status in the 2xx range. -/
def responseOk (r : HttpResponse) : Bool :=
  200 ≤ r.status && r.status ≤ 299

/-- A parsed response body as returned to callers: JSON when the body was
parsed as JSON, otherwise the raw text. -/
inductive BodyData where
  | json (j : Json)
  | text (s : String)
deriving Repr, BEq

/-- The JS value a body datum denotes (a text body is a JS string). -/
def bodyVal : BodyData → JsVal
  | .json j => some j
  | .text s => some (.str s)

/-- The fields set on the `Error` object that `handleResponse` throws for a
non-2xx response (the source's `ApiError` shape). -/
structure ApiErrorData where
  message : String
  status : Option Nat
  statusText : Option String
  data : Option BodyData
deriving Repr, BEq

/-- A thrown JS error: either an ApiError-shaped `Error` (it satisfies both
`error instanceof ApiError` and `'status' in error` in the source) or a plain
`Error` carrying only a message. -/
inductive JsError where
  | apiError (e : ApiErrorData)
  | error (message : String)
deriving Repr, BEq

/-- Message of the SyntaxError with which `response.json()` rejects when the
body is not valid JSON. -/
def syntaxErrorMessage : String := "Unexpected token in JSON"

/-- Message of the TypeError with which a body-consuming method rejects when
the response body stream has already been read. -/
def bodyUsedMessage : String := "body stream already read"

/-- Outcome of `handleResponse`: a returned body, a thrown ApiError, or a
rejection with a non-ApiError error. -/
inductive HandleResult where
  | ok (d : BodyData)
  | apiErr (e : ApiErrorData)
  | thrown (msg : String)
deriving Repr, BEq

/-- JS `s.includes(sub)`: whether `sub` occurs as a contiguous substring. -/
def strIncludes (s sub : String) : Bool :=
  (List.range (s.toList.length + 1)).any
    (fun i => sub.toList.isPrefixOf (s.toList.drop i))

/-- Whether the response declares a JSON content type
(`contentType && contentType.includes('application/json')`). -/
def isJsonContentType (ct : Option String) : Bool :=
  match ct with
  | none => false
  | some s => strIncludes s "application/json"

/-- `handleResponse` from the api-client. On a non-2xx response it builds an
ApiError with the status line and `error.data = await response.json()`; when
that parse fails the body stream is already consumed, so the
`error.data = await response.text()` fallback in the catch block rejects with
a TypeError, which propagates instead of the ApiError. On a 2xx response it
returns parsed JSON when the content type declares JSON (rejecting when the
body fails to parse), and the raw text otherwise. -/
def handleResponse (r : HttpResponse) : HandleResult :=
  if !(responseOk r) then
    match r.bodyJson with
    | some j =>
        .apiErr { message := "API Error: " ++ r.statusText
                  status := some r.status
                  statusText := some r.statusText
                  data := some (.json j) }
    | none => .thrown bodyUsedMessage
  else if isJsonContentType r.contentType then
    match r.bodyJson with
    | some j => .ok (.json j)
    | none => .thrown syntaxErrorMessage
  else
    .ok (.text r.bodyText)

/-! ## Configuration, URL building and the apiClient pipeline -/

/-- Environment-style configuration: whether `typeof process !== 'undefined'`,
and the values of `NEXT_PUBLIC_DIRECTUS_URL`, `NEXT_PUBLIC_API_BASE_URL` and
`NEXT_PUBLIC_API_KEY`. -/
structure Config where
  hasProcess : Bool
  directusUrl : Option String
  apiBaseUrl : Option String
  apiKey : Option String
deriving Repr

/-- JS falsiness of an optional string (`undefined` and the empty string). -/
def strFalsy : Option String → Bool
  | none => true
  | some s => s == ""

/-- The JS `a || b` on optional strings (an empty string is falsy). -/
def strOrElse (a b : Option String) : Option String :=
  if strFalsy a then b else a

/-- The regex replace of a trailing slash with the empty string: drops one
trailing slash when present. -/
def stripTrailingSlash (s : String) : String :=
  if s.toList.getLast? == some '/' then String.mk s.toList.dropLast else s

/-- `getApiBaseUrl` from the api-client: the Directus URL, falling back to the
legacy base URL, throwing when neither is set; one trailing slash stripped. -/
def getApiBaseUrl (cfg : Config) : Except String String :=
  let directusUrl := if cfg.hasProcess then cfg.directusUrl else none
  let baseUrl := strOrElse directusUrl
    (if cfg.hasProcess then cfg.apiBaseUrl else none)
  if strFalsy baseUrl then
    .error "NEXT_PUBLIC_DIRECTUS_URL is not set. Please set it in your .env.local file (local) or environment variables (production)."
  else
    .ok (stripTrailingSlash (baseUrl.getD ""))

/-- Characters of a URL's origin: everything up to the first slash after the
first "://" separator; a URL without "://" is kept whole. -/
def originChars : List Char → List Char
  | ':' :: '/' :: '/' :: rest => ':' :: '/' :: '/' :: rest.takeWhile (· != '/')
  | c :: rest => c :: originChars rest
  | [] => []

/-- Scheme and authority of a URL: everything up to the first slash after the
scheme separator. -/
def urlOrigin (base : String) : String :=
  String.mk (originChars base.toList)

/-- `buildUrl` from the api-client: resolves the endpoint against the
configured base with `new URL(endpoint, baseUrl)` — every endpoint this client
passes is root-relative, so the endpoint replaces the base URL's path — then
appends the query parameters in iteration order (the auth flows pass none). -/
def buildUrl (cfg : Config) (endpoint : String)
    (params : List (String × String)) : Except String String :=
  match getApiBaseUrl cfg with
  | .error e => .error e
  | .ok base =>
    let u := if endpoint.toList.head? == some '/' then urlOrigin base ++ endpoint
             else endpoint
    .ok (match params with
      | [] => u
      | ps => u ++ "?" ++
          String.intercalate "&" (ps.map (fun p => p.1 ++ "=" ++ p.2)))

/-- `getDefaultHeaders` from the api-client: JSON content type, a bearer
header when a (truthy) token is stored, and the static API key header when
configured in a browser. -/
def getDefaultHeaders (cfg : Config) (s : TokenStore) :
    List (String × String) :=
  let base := [("Content-Type", "application/json")]
  let withAuth :=
    match getStoredAuthToken s with
    | some t => if t == "" then base
                else base ++ [("Authorization", "Bearer " ++ t)]
    | none => base
  if s.hasWindow && cfg.hasProcess then
    match cfg.apiKey with
    | some k => if k == "" then withAuth else withAuth ++ [("X-API-Key", k)]
    | none => withAuth
  else withAuth

/-- A dispatched HTTP request as recorded in the network trace. -/
structure Request where
  method : String
  url : String
  headers : List (String × String)
  body : Option Json
deriving Repr

/-- Outcome of a single `fetch`: a response, or a rejection (network
failure) with the rejecting error's message. -/
inductive FetchOutcome where
  | resp (r : HttpResponse)
  | netFail (msg : String)

/-- The network during one scenario: the oracle gives the outcome of the
n-th fetch; `calls` counts fetches so far; `trace` records every request
actually dispatched. -/
structure NetState where
  oracle : Nat → FetchOutcome
  calls : Nat
  trace : List Request

/-- Dispatch one request: consume the next oracle outcome and record the
request in the trace. -/
def doFetch (ns : NetState) (req : Request) : FetchOutcome × NetState :=
  (ns.oracle ns.calls,
   { ns with calls := ns.calls + 1, trace := ns.trace ++ [req] })

/-- `apiClient` from the api-client source: build the URL (a configuration
error is thrown before any fetch), attach default headers, stringify a truthy
body, fetch, and hand the response to `handleResponse`; in the catch block an
error with a `status` field is re-thrown as is, anything else is wrapped into
a generic `Network error: …`. -/
def apiClient (cfg : Config) (s : TokenStore) (ns : NetState)
    (method endpoint : String) (params : List (String × String))
    (body : Option Json) : Except JsError BodyData × NetState :=
  match buildUrl cfg endpoint params with
  | .error e => (.error (.error e), ns)
  | .ok url =>
    let req : Request :=
      { method := method, url := url
        headers := getDefaultHeaders cfg s
        body := match body with
          | some j => if jsTruthy j then some j else none
          | none => none }
    let (out, ns1) := doFetch ns req
    match out with
    | .netFail m => (.error (.error ("Network error: " ++ m)), ns1)
    | .resp r =>
      match handleResponse r with
      | .ok d => (.ok d, ns1)
      | .apiErr e => (.error (.apiError e), ns1)
      | .thrown m => (.error (.error ("Network error: " ++ m)), ns1)

/-- `api.get`. -/
def apiGet (cfg : Config) (s : TokenStore) (ns : NetState)
    (endpoint : String) : Except JsError BodyData × NetState :=
  apiClient cfg s ns "GET" endpoint [] none

/-- `api.post`. -/
def apiPost (cfg : Config) (s : TokenStore) (ns : NetState)
    (endpoint : String) (body : Option Json) :
    Except JsError BodyData × NetState :=
  apiClient cfg s ns "POST" endpoint [] body

/-! ## Auth service -/

/-- Message of the TypeError thrown by evaluating `error instanceof ApiError`
in the auth service: `ApiError` is an interface the api-client exports
type-only, so the imported binding has no runtime value and `instanceof`
against it throws. -/
def instanceofUndefinedMessage : String :=
  "Right-hand side of 'instanceof' is not an object"

/-- The mapping written in the body of `extractErrorMessage`, reading its
`error instanceof ApiError` guard as the ApiError shape test it was meant to
be: the first CMS errors-array message, else a truthy `data.message`, else
the status fallbacks, else the status text. This body is dead at runtime —
evaluating the guard itself throws (see `extractErrorMessage`). The returned
string is the message of the `Error` a caller would construct with
`new Error(…)`, so the `String(…)` coercion that `new Error` applies to a
non-string result is folded in; a TypeError raised inside the body
(`errors[0].message` on a nullish element) is the `.error` case. -/
def extractErrorMessageBody (e : JsError) : Except String String :=
  match e with
  | .error msg => .ok msg
  | .apiError a =>
    let dataV : JsVal := match a.data with
      | some d => bodyVal d
      | none => none
    let errorsV := jsPropOpt dataV "errors"
    if jsValTruthy errorsV && jsLenPos errorsV then
      (jsProp (jsIndexOpt errorsV 0) "message").map jsErrMsgOf
    else
      let fromMessage : Option String :=
        if jsTypeofObject dataV && !(jsIsNull dataV) then
          let msgV := jsPropOpt dataV "message"
          if jsValTruthy msgV then some (jsStringOfVal msgV) else none
        else none
      match fromMessage with
      | some m => .ok m
      | none =>
        if a.status == some 401 then .ok "Invalid email or password"
        else if a.status == some 403 then .ok "Access forbidden"
        else if a.status == some 404 then .ok "Endpoint not found"
        else if a.status == some 422 then
          .ok "Validation error. Please check your input."
        else if a.status == some 500 then
          .ok "Server error. Please try again later."
        else
          .ok (match a.statusText with
            | some st => if st == "" then "An error occurred" else st
            | none => "An error occurred")

/-- `extractErrorMessage` from the auth service as it runs: its first
statement evaluates `error instanceof ApiError`, which throws a TypeError on
every input because `ApiError` has no runtime value, so no branch of the
written body (`extractErrorMessageBody`) is ever reached and the function
always throws (the `.error` case). -/
def extractErrorMessage (_e : JsError) : Except String String :=
  .error instanceofUndefinedMessage

/-- Message of the error that escapes a catch block of the shape
`const msg = extractErrorMessage(error); throw new Error(msg)`: since
extractErrorMessage itself throws, the escaping error is its TypeError and
its message is what the caller rejects with. -/
def errMsgOf (e : JsError) : String :=
  match extractErrorMessage e with
  | .ok m => m
  | .error m => m

/-- The `AuthUser` shape the auth service returns; fields hold the raw JS
values copied from the CMS response (`none` is `undefined`). -/
structure AuthUser where
  id : JsVal
  email : JsVal
  firstName : JsVal
  lastName : JsVal
  role : JsVal
  status : JsVal
deriving Repr, BEq

/-- The user object literal login/getCurrentUser build from a `/users/me`
response body: each field is `userResponse.data.<field>`, so a nullish
`userResponse.data` raises a TypeError (the `.error` case). -/
def readAuthUser (d : BodyData) : Except String AuthUser := do
  let dataV ← jsProp (bodyVal d) "data"
  let id ← jsProp dataV "id"
  let email ← jsProp dataV "email"
  let firstName ← jsProp dataV "first_name"
  let lastName ← jsProp dataV "last_name"
  let role ← jsProp dataV "role"
  let status ← jsProp dataV "status"
  return { id := id, email := email, firstName := firstName
           lastName := lastName, role := role, status := status }

/-- Login credentials. -/
structure LoginCredentials where
  email : String
  password : String
deriving Repr

/-- The JSON body `login` posts to `/auth/login`. -/
def loginBody (c : LoginCredentials) : Json :=
  .obj [("email", .str c.email), ("password", .str c.password)]

/-- `login` from the auth service: post the credentials, store each returned
token that is truthy, fetch `/users/me`, and return the user built from that
response. Every caught error is passed to `extractErrorMessage`, whose
`instanceof` evaluation throws, so on any failure login rejects with that
TypeError rather than the intended `new Error(extractErrorMessage(error))`;
the `.error` case carries the rejecting error's message (`errMsgOf`). -/
def login (cfg : Config) (s : TokenStore) (ns : NetState)
    (c : LoginCredentials) :
    Except String AuthUser × TokenStore × NetState :=
  match apiPost cfg s ns "/auth/login" (some (loginBody c)) with
  | (.error e, ns1) => (.error (errMsgOf e), s, ns1)
  | (.ok d, ns1) =>
    match jsProp (bodyVal d) "data" with
    | .error m => (.error (errMsgOf (.error m)), s, ns1)
    | .ok dataV =>
      let accessV := jsPropOpt dataV "access_token"
      let s1 := if jsValTruthy accessV then
          setAuthToken s (jsStringOfVal accessV) else s
      let refreshV := jsPropOpt dataV "refresh_token"
      let s2 := if jsValTruthy refreshV then
          setRefreshToken s1 (jsStringOfVal refreshV) else s1
      match apiGet cfg s2 ns1 "/users/me" with
      | (.error e, ns2) => (.error (errMsgOf e), s2, ns2)
      | (.ok d2, ns2) =>
        match readAuthUser d2 with
        | .error m => (.error (errMsgOf (.error m)), s2, ns2)
        | .ok u => (.ok u, s2, ns2)

/-- `logout` from the auth service: `clearAuthTokens()` and nothing else — in
particular the network state is untouched (no request is dispatched). -/
def logout (s : TokenStore) (ns : NetState) : TokenStore × NetState :=
  (clearAuthTokens s, ns)

/-- `isAuthenticated` from the auth service: `getAuthToken() !== null`. -/
def isAuthenticated (s : TokenStore) : Bool :=
  (getAuthToken s).isSome

/-- Body of the try block of `refreshToken` from the auth service, given the
(truthy) stored refresh token: resolve the Directus URL directly from
configuration, `fetch` the refresh endpoint bypassing `apiClient`, and on a
non-ok response throw the first CMS error message
(`errorData.errors?.[0]?.message || 'Failed to refresh token'`, over
`await response.json().catch(() => ({}))`); on an ok response store each
truthy returned token and return `result.data.access_token`. Every `.error`
result is an error thrown inside the try block, to be handled by the catch in
`refreshToken`; the store is returned as mutated so far. -/
def refreshTokenAttempt (cfg : Config) (rt : String) (s : TokenStore)
    (ns : NetState) : Except String JsVal × TokenStore × NetState :=
  match (if cfg.hasProcess then cfg.directusUrl else none) with
  | none => (.error "Directus URL not configured", s, ns)
  | some durl =>
    if durl == "" then (.error "Directus URL not configured", s, ns)
    else
      let baseUrl := stripTrailingSlash durl
      let req : Request :=
        { method := "POST", url := baseUrl ++ "/auth/refresh"
          headers := [("Content-Type", "application/json")]
          body := some (.obj [("refresh_token", .str rt)]) }
      let (out, ns1) := doFetch ns req
      match out with
      | .netFail m => (.error m, s, ns1)
      | .resp r =>
        if !(responseOk r) then
          let errJsonV : JsVal :=
            some (match r.bodyJson with | some j => j | none => .obj [])
          match jsProp errJsonV "errors" with
          | .error m => (.error m, s, ns1)
          | .ok errsV =>
            let msgV := jsPropOpt (jsIndexOpt errsV 0) "message"
            let m := if jsValTruthy msgV then jsStringOfVal msgV
                     else "Failed to refresh token"
            (.error m, s, ns1)
        else
          match r.bodyJson with
          | none => (.error syntaxErrorMessage, s, ns1)
          | some j =>
            match jsProp (some j) "data" with
            | .error m => (.error m, s, ns1)
            | .ok dataV =>
              let accessV := jsPropOpt dataV "access_token"
              let s1 := if jsValTruthy accessV then
                  setAuthToken s (jsStringOfVal accessV) else s
              let refreshV := jsPropOpt dataV "refresh_token"
              let s2 := if jsValTruthy refreshV then
                  setRefreshToken s1 (jsStringOfVal refreshV) else s1
              match jsProp dataV "access_token" with
              | .error m => (.error m, s2, ns1)
              | .ok v => (.ok v, s2, ns1)

/-- `refreshToken` from the auth service: the falsy-refresh-token guard
(thrown before the try block, so it clears nothing), then the try block
(`refreshTokenAttempt`), then the catch block: it first calls
`clearAuthTokens()` on the store as mutated so far, and then calls
`extractErrorMessage(error)` — whose `instanceof` evaluation throws — so the
rejection that escapes is that TypeError, not the intended
`new Error(extractErrorMessage(error))`; the clearing has already happened by
then. -/
def refreshToken (cfg : Config) (s : TokenStore) (ns : NetState) :
    Except String JsVal × TokenStore × NetState :=
  match getRefreshToken s with
  | none => (.error "No refresh token available", s, ns)
  | some rt =>
    if rt == "" then (.error "No refresh token available", s, ns)
    else
      match refreshTokenAttempt cfg rt s ns with
      | (.ok v, s2, ns1) => (.ok v, s2, ns1)
      | (.error _m, s2, ns1) =>
          (.error instanceofUndefinedMessage, clearAuthTokens s2, ns1)

/-- `getCurrentUser` from the auth service as it runs: return `null` at once
when the stored access token is falsy; otherwise fetch `/users/me` and return
the user. The catch block was written to clear both tokens on an ApiError
with status 401 and return `null` for every caught error, but its first
expression `error instanceof ApiError` throws a TypeError (`ApiError` has no
runtime value), so every caught error makes getCurrentUser reject with that
TypeError instead: the 401-clearing branch and the `return null` after it are
unreachable, and the store is never cleared here. -/
def getCurrentUser (cfg : Config) (s : TokenStore) (ns : NetState) :
    Except String (Option AuthUser) × TokenStore × NetState :=
  match getAuthToken s with
  | none => (.ok none, s, ns)
  | some t =>
    if t == "" then (.ok none, s, ns)
    else
      match apiGet cfg s ns "/users/me" with
      | (.error _e, ns1) => (.error instanceofUndefinedMessage, s, ns1)
      | (.ok d, ns1) =>
        match readAuthUser d with
        | .error _m => (.error instanceofUndefinedMessage, s, ns1)
        | .ok u => (.ok (some u), s, ns1)

/-! ## Store lemmas -/

lemma lsGetItem_lsRemoveItem_self (l : List (String × String)) (k : String) :
    lsGetItem (lsRemoveItem l k) k = none := by
  induction l with
  | nil => rfl
  | cons a l ih =>
    unfold lsRemoveItem at ih ⊢
    rw [List.filter_cons]
    by_cases h : a.1 = k
    · rw [if_neg (by simp [h])]
      exact ih
    · rw [if_pos (by simp [h])]
      unfold lsGetItem at ih ⊢
      rw [List.find?_cons_of_neg _ (by simp [h])]
      exact ih

lemma lsGetItem_lsRemoveItem_other (l : List (String × String))
    (k k2 : String) (h : k2 ≠ k) :
    lsGetItem (lsRemoveItem l k2) k = lsGetItem l k := by
  induction l with
  | nil => rfl
  | cons a l ih =>
    unfold lsRemoveItem at ih ⊢
    rw [List.filter_cons]
    by_cases ha : a.1 = k2
    · rw [if_neg (by simp [ha])]
      unfold lsGetItem at ih ⊢
      rw [List.find?_cons_of_neg _ (by simp [ha, h])]
      exact ih
    · rw [if_pos (by simp [ha])]
      unfold lsGetItem at ih ⊢
      by_cases hak : a.1 = k
      · rw [List.find?_cons_of_pos _ (by simp [hak]),
          List.find?_cons_of_pos _ (by simp [hak])]
      · rw [List.find?_cons_of_neg _ (by simp [hak]),
          List.find?_cons_of_neg _ (by simp [hak])]
        exact ih

lemma getAuthToken_clearAuthTokens (s : TokenStore) :
    getAuthToken (clearAuthTokens s) = none := by
  unfold getAuthToken clearAuthTokens
  by_cases hw : s.hasWindow <;> by_cases hf : s.storageFails <;>
    simp [hw, hf]
  rw [lsGetItem_lsRemoveItem_other _ _ _ (by decide),
    lsGetItem_lsRemoveItem_self]

lemma getRefreshToken_clearAuthTokens (s : TokenStore) :
    getRefreshToken (clearAuthTokens s) = none := by
  unfold getRefreshToken clearAuthTokens
  by_cases hw : s.hasWindow <;> by_cases hf : s.storageFails <;>
    simp [hw, hf]
  rw [lsGetItem_lsRemoveItem_self]

lemma find?_key_map_set (l : List (String × String)) (k v : String)
    (h : l.any (fun p => p.1 == k) = true) :
    (l.map (fun p => if p.1 == k then (k, v) else p)).find?
      (fun p => p.1 == k) = some (k, v) := by
  induction l with
  | nil => simp at h
  | cons a l ih =>
    rw [List.any_cons, Bool.or_eq_true] at h
    by_cases ha : a.1 = k
    · rw [List.map_cons, if_pos (by simp [ha]),
        List.find?_cons_of_pos _ (by simp)]
    · have ht : l.any (fun p => p.1 == k) = true := by
        rcases h with h | h
        · exact absurd h (by simp [ha])
        · exact h
      rw [List.map_cons, if_neg (by simp [ha]),
        List.find?_cons_of_neg _ (by simp [ha])]
      exact ih ht

lemma find?_key_append_single (l : List (String × String)) (k v : String)
    (h : l.any (fun p => p.1 == k) = false) :
    (l ++ [(k, v)]).find? (fun p => p.1 == k) = some (k, v) := by
  induction l with
  | nil =>
    rw [List.nil_append, List.find?_cons_of_pos _ (by simp)]
  | cons a l ih =>
    rw [List.any_cons, Bool.or_eq_false_iff] at h
    rw [List.cons_append, List.find?_cons_of_neg _ (by simp [h.1])]
    exact ih h.2

lemma lsGetItem_lsSetItem_self (l : List (String × String)) (k v : String) :
    lsGetItem (lsSetItem l k v) k = some v := by
  unfold lsSetItem lsGetItem
  by_cases h : l.any (fun p => p.1 == k) = true
  · rw [if_pos h, find?_key_map_set l k v h]
    rfl
  · have hf : l.any (fun p => p.1 == k) = false := by
      rwa [Bool.not_eq_true] at h
    rw [if_neg h, find?_key_append_single l k v hf]
    rfl

/-! ## Further store lemmas -/

lemma find?_key_map_set_other (l : List (String × String)) (k k2 v : String)
    (h : k ≠ k2) :
    (l.map (fun p => if p.1 == k2 then (k2, v) else p)).find?
      (fun p => p.1 == k) = l.find? (fun p => p.1 == k) := by
  induction l with
  | nil => rfl
  | cons a l ih =>
    by_cases ha : a.1 = k2
    · have hak : (a.1 == k) = false := by simp [ha, Ne.symm h]
      rw [List.map_cons, if_pos (by simp [ha]),
        List.find?_cons_of_neg _ (by simp [Ne.symm h]),
        List.find?_cons_of_neg _ (by simp [hak])]
      exact ih
    · by_cases hak : a.1 = k
      · rw [List.map_cons, if_neg (by simp [ha]),
          List.find?_cons_of_pos _ (by simp [hak]),
          List.find?_cons_of_pos _ (by simp [hak])]
      · rw [List.map_cons, if_neg (by simp [ha]),
          List.find?_cons_of_neg _ (by simp [hak]),
          List.find?_cons_of_neg _ (by simp [hak])]
        exact ih

lemma find?_key_append_single_other (l : List (String × String))
    (k k2 v : String) (h : k ≠ k2) :
    (l ++ [(k2, v)]).find? (fun p => p.1 == k) =
      l.find? (fun p => p.1 == k) := by
  induction l with
  | nil =>
    rw [List.nil_append, List.find?_cons_of_neg _ (by simp [Ne.symm h])]
  | cons a l ih =>
    by_cases hak : a.1 = k
    · rw [List.cons_append, List.find?_cons_of_pos _ (by simp [hak]),
        List.find?_cons_of_pos _ (by simp [hak])]
    · rw [List.cons_append, List.find?_cons_of_neg _ (by simp [hak]),
        List.find?_cons_of_neg _ (by simp [hak])]
      exact ih

lemma lsGetItem_lsSetItem_other (l : List (String × String)) (k k2 v : String)
    (h : k ≠ k2) :
    lsGetItem (lsSetItem l k2 v) k = lsGetItem l k := by
  unfold lsSetItem lsGetItem
  by_cases hA : l.any (fun p => p.1 == k2) = true
  · rw [if_pos hA, find?_key_map_set_other l k k2 v h]
  · rw [if_neg hA, find?_key_append_single_other l k k2 v h]

lemma getAuthToken_setRefreshToken (s : TokenStore) (v : String) :
    getAuthToken (setRefreshToken s v) = getAuthToken s := by
  unfold getAuthToken setRefreshToken
  by_cases hw : s.hasWindow <;> by_cases hf : s.storageFails <;>
    simp [hw, hf]
  exact lsGetItem_lsSetItem_other _ _ _ _ (by decide)

lemma getRefreshToken_setAuthToken (s : TokenStore) (v : String) :
    getRefreshToken (setAuthToken s v) = getRefreshToken s := by
  unfold getRefreshToken setAuthToken
  by_cases hw : s.hasWindow <;> by_cases hf : s.storageFails <;>
    simp [hw, hf]
  exact lsGetItem_lsSetItem_other _ _ _ _ (by decide)

lemma getAuthToken_setAuthToken (s : TokenStore) (v : String)
    (hw : s.hasWindow = true) (hf : s.storageFails = false) :
    getAuthToken (setAuthToken s v) = some v := by
  unfold getAuthToken setAuthToken
  simp [hw, hf, lsGetItem_lsSetItem_self]

lemma getRefreshToken_setRefreshToken (s : TokenStore) (v : String)
    (hw : s.hasWindow = true) (hf : s.storageFails = false) :
    getRefreshToken (setRefreshToken s v) = some v := by
  unfold getRefreshToken setRefreshToken
  simp [hw, hf, lsGetItem_lsSetItem_self]

lemma setAuthToken_hasWindow (s : TokenStore) (v : String) :
    (setAuthToken s v).hasWindow = s.hasWindow := by
  unfold setAuthToken
  by_cases hw : s.hasWindow <;> by_cases hf : s.storageFails <;> simp [hw, hf]

lemma setAuthToken_storageFails (s : TokenStore) (v : String) :
    (setAuthToken s v).storageFails = s.storageFails := by
  unfold setAuthToken
  by_cases hw : s.hasWindow <;> by_cases hf : s.storageFails <;> simp [hw, hf]

lemma clearAuthTokens_hasWindow (s : TokenStore) :
    (clearAuthTokens s).hasWindow = s.hasWindow := by
  unfold clearAuthTokens
  by_cases hw : s.hasWindow <;> by_cases hf : s.storageFails <;> simp [hw, hf]

lemma clearAuthTokens_storageFails (s : TokenStore) :
    (clearAuthTokens s).storageFails = s.storageFails := by
  unfold clearAuthTokens
  by_cases hw : s.hasWindow <;> by_cases hf : s.storageFails <;> simp [hw, hf]

lemma clearAuthTokens_clearAuthTokens (s : TokenStore) :
    clearAuthTokens (clearAuthTokens s) = clearAuthTokens s := by
  unfold clearAuthTokens lsRemoveItem
  by_cases hw : s.hasWindow <;> by_cases hf : s.storageFails <;>
    simp [hw, hf, List.filter_filter]
  apply List.filter_congr
  intro x _
  cases hx : (x.1 == ACCESS_TOKEN_KEY) <;>
    cases hy : (x.1 == REFRESH_TOKEN_KEY) <;> simp [bne, hx, hy]

/-! ## Claim theorems -/

/-- Shared concrete inputs used by the witness theorems below. -/
def idleNet : NetState := ⟨fun _ => .netFail "unreachable", 0, []⟩

def someCfg : Config := ⟨true, some "https://cms.example.com", none, none⟩

def noUrlCfg : Config := ⟨true, none, none, none⟩

def emptyBrowserStore : TokenStore := ⟨true, false, []⟩

def bothTokensStore : TokenStore :=
  ⟨true, false, [(ACCESS_TOKEN_KEY, "A"), (REFRESH_TOKEN_KEY, "R")]⟩

def accessOnlyStore : TokenStore := ⟨true, false, [(ACCESS_TOKEN_KEY, "A")]⟩

/-- A 401 response with a JSON body. -/
def resp401Json : HttpResponse :=
  ⟨401, "Unauthorized", some "application/json", "", some (.obj [])⟩


/-- A fresh network state whose oracle always yields the given response. -/
def netOf (r : HttpResponse) : NetState := ⟨fun _ => .resp r, 0, []⟩

/-- C7: for every prior store state, logout leaves both token getters at
`none`, leaves the network state (hence the request trace) untouched, and is
idempotent on the store: a second logout produces the identical store. -/
theorem logout_clears_idempotent_no_network (s : TokenStore) (ns : NetState) :
    getAuthToken (logout s ns).1 = none ∧
    getRefreshToken (logout s ns).1 = none ∧
    (logout s ns).2 = ns ∧
    (logout (logout s ns).1 ns).1 = (logout s ns).1 :=
  ⟨getAuthToken_clearAuthTokens s, getRefreshToken_clearAuthTokens s, rfl,
    clearAuthTokens_clearAuthTokens s⟩

/-- C10: in a browser environment with working storage the token store
round-trips: after setAuthToken the access getter returns the stored string,
after setRefreshToken the refresh getter does, and after clearAuthTokens both
getters return none. -/
theorem tokenStore_roundtrip (s : TokenStore) (t : String)
    (hw : s.hasWindow = true) (hf : s.storageFails = false) :
    getAuthToken (setAuthToken s t) = some t ∧
    getRefreshToken (setRefreshToken s t) = some t ∧
    getAuthToken (clearAuthTokens s) = none ∧
    getRefreshToken (clearAuthTokens s) = none :=
  ⟨getAuthToken_setAuthToken s t hw hf, getRefreshToken_setRefreshToken s t hw hf,
    getAuthToken_clearAuthTokens s, getRefreshToken_clearAuthTokens s⟩

/-- C10 witness: the round-trip at a concrete store and token. -/
theorem tokenStore_roundtrip_witness :
    getAuthToken (setAuthToken emptyBrowserStore "tok") = some "tok" ∧
    getRefreshToken (setRefreshToken emptyBrowserStore "tok") = some "tok" ∧
    getAuthToken (clearAuthTokens emptyBrowserStore) = none ∧
    getRefreshToken (clearAuthTokens emptyBrowserStore) = none :=
  tokenStore_roundtrip emptyBrowserStore "tok" rfl rfl

/-- C3 counterexample: storing only an access token yields a partial state
(access present, refresh absent), and isAuthenticated treats exactly that
partial state as authenticated — refuting both the both-or-none invariant and
the "partial state is treated as unauthenticated" half of the claim. -/
theorem partial_state_counterexample :
    getAuthToken (setAuthToken emptyBrowserStore "A") = some "A" ∧
    getRefreshToken (setAuthToken emptyBrowserStore "A") = none ∧
    isAuthenticated (setAuthToken emptyBrowserStore "A") = true :=
  ⟨rfl, rfl, rfl⟩

/-- C3 (amended): the store does not enforce the both-or-none invariant
(partial states are representable and reachable), and isAuthenticated reads
only the access token: it equals access-token presence on every state, a
partial state holding only a refresh token is treated as unauthenticated, and
one holding only an access token is treated as authenticated. -/
theorem isAuthenticated_access_only (s : TokenStore) (t : String)
    (hw : s.hasWindow = true) (hf : s.storageFails = false) :
    isAuthenticated s = (getAuthToken s).isSome ∧
    isAuthenticated (setRefreshToken (clearAuthTokens s) t) = false ∧
    isAuthenticated (setAuthToken (clearAuthTokens s) t) = true := by
  refine ⟨rfl, ?_, ?_⟩
  · unfold isAuthenticated
    rw [getAuthToken_setRefreshToken, getAuthToken_clearAuthTokens]
    rfl
  · unfold isAuthenticated
    rw [getAuthToken_setAuthToken _ _ (by rw [clearAuthTokens_hasWindow, hw])
      (by rw [clearAuthTokens_storageFails, hf])]
    rfl

/-- C3 witness: the amended statement at a concrete store and token. -/
theorem isAuthenticated_access_only_witness :
    isAuthenticated bothTokensStore = (getAuthToken bothTokensStore).isSome ∧
    isAuthenticated (setRefreshToken (clearAuthTokens bothTokensStore) "T") = false ∧
    isAuthenticated (setAuthToken (clearAuthTokens bothTokensStore) "T") = true :=
  isAuthenticated_access_only bothTokensStore "T" rfl rfl

/-- C8: whenever no access token is stored, getCurrentUser returns none
(a fulfilled null, not a rejection) immediately, leaving the store and the
network state (hence the request trace) untouched. -/
theorem getCurrentUser_no_token (cfg : Config) (s : TokenStore) (ns : NetState)
    (h : getAuthToken s = none) :
    (getCurrentUser cfg s ns).1 = .ok none ∧
    (getCurrentUser cfg s ns).2.1 = s ∧
    (getCurrentUser cfg s ns).2.2 = ns := by
  unfold getCurrentUser
  rw [h]
  exact ⟨rfl, rfl, rfl⟩

/-- C8 witness: getCurrentUser on an empty browser store. -/
theorem getCurrentUser_no_token_witness :
    (getCurrentUser someCfg emptyBrowserStore idleNet).1 = .ok none ∧
    (getCurrentUser someCfg emptyBrowserStore idleNet).2.1 = emptyBrowserStore ∧
    (getCurrentUser someCfg emptyBrowserStore idleNet).2.2 = idleNet :=
  getCurrentUser_no_token someCfg emptyBrowserStore idleNet rfl

/-- C9: whenever no refresh token is stored, refreshToken fails with its
guard error before any request: store and network state are untouched. -/
theorem refreshToken_no_token (cfg : Config) (s : TokenStore) (ns : NetState)
    (h : getRefreshToken s = none) :
    (refreshToken cfg s ns).1 = .error "No refresh token available" ∧
    (refreshToken cfg s ns).2.1 = s ∧
    (refreshToken cfg s ns).2.2 = ns := by
  unfold refreshToken
  rw [h]
  exact ⟨rfl, rfl, rfl⟩

/-- C9 witness: refreshToken on a store holding only an access token. -/
theorem refreshToken_no_token_witness :
    (refreshToken someCfg accessOnlyStore idleNet).1
      = .error "No refresh token available" ∧
    (refreshToken someCfg accessOnlyStore idleNet).2.1 = accessOnlyStore ∧
    (refreshToken someCfg accessOnlyStore idleNet).2.2 = idleNet :=
  refreshToken_no_token someCfg accessOnlyStore idleNet rfl

/-- Every execution of refreshToken that enters the try block either ends in
its catch — which clears the store — or returns ok. -/
lemma refreshToken_clears_or_ok (cfg : Config) (s : TokenStore) (ns : NetState)
    (rt : String) (hrt : getRefreshToken s = some rt)
    (hne : (rt == "") = false) :
    (getAuthToken (refreshToken cfg s ns).2.1 = none ∧
     getRefreshToken (refreshToken cfg s ns).2.1 = none) ∨
    (∃ v, (refreshToken cfg s ns).1 = .ok v) := by
  unfold refreshToken
  split
  · rename_i heq
    rw [heq] at hrt
    exact Option.noConfusion hrt
  · rename_i rt2 heq
    rw [heq] at hrt
    injection hrt with hEq
    subst hEq
    rw [if_neg (by simp [hne])]
    rcases hA : refreshTokenAttempt cfg rt2 s ns with ⟨res, s2, ns1⟩
    rcases res with m | v
    · exact Or.inl
        ⟨getAuthToken_clearAuthTokens s2, getRefreshToken_clearAuthTokens s2⟩
    · exact Or.inr ⟨v, rfl⟩

/-- C5 counterexample: with an access token stored but no refresh token,
refreshToken fails (its guard throws) and yet clears nothing: the access
token survives this failing execution. -/
theorem refreshToken_guard_counterexample :
    (refreshToken someCfg accessOnlyStore idleNet).1
      = .error "No refresh token available" ∧
    getAuthToken (refreshToken someCfg accessOnlyStore idleNet).2.1
      = some "A" :=
  ⟨rfl, rfl⟩

/-- C5 (amended): for every execution of refreshToken in which a refresh
token is present (so the refresh attempt is entered) and which fails for any
reason — missing configuration, network failure, non-2xx refresh response,
malformed response body — both tokens are cleared before the normalized error
is re-thrown; when no refresh token is present, refreshToken throws without
touching the store. -/
theorem refreshToken_failure_clears (cfg : Config) (s : TokenStore)
    (ns : NetState) (rt m : String)
    (hrt : getRefreshToken s = some rt) (hne : rt ≠ "")
    (herr : (refreshToken cfg s ns).1 = .error m) :
    getAuthToken (refreshToken cfg s ns).2.1 = none ∧
    getRefreshToken (refreshToken cfg s ns).2.1 = none := by
  have hb : (rt == "") = false := beq_eq_false_iff_ne.mpr hne
  rcases refreshToken_clears_or_ok cfg s ns rt hrt hb with h | ⟨v, hv⟩
  · exact h
  · rw [herr] at hv
    exact Except.noConfusion hv

/-- C5 witness: the refresh attempt with both tokens stored but no configured
Directus URL fails and clears both tokens. -/
theorem refreshToken_failure_clears_witness :
    getAuthToken (refreshToken noUrlCfg bothTokensStore idleNet).2.1 = none ∧
    getRefreshToken (refreshToken noUrlCfg bothTokensStore idleNet).2.1 = none :=
  refreshToken_failure_clears noUrlCfg bothTokensStore idleNet "R"
    instanceofUndefinedMessage rfl (by decide) rfl

/-- Stepping lemma: apiClient under a resolvable base URL and an oracle
response — the result is handleResponse's outcome routed through the catch
block, and the successor network state keeps the oracle with one more call. -/
lemma apiClient_resp (cfg : Config) (s : TokenStore) (ns : NetState)
    (method endpoint : String) (params : List (String × String))
    (body : Option Json) (b : String) (r : HttpResponse)
    (hb : getApiBaseUrl cfg = .ok b)
    (hresp : ns.oracle ns.calls = .resp r) :
    ∃ ns1 : NetState,
      apiClient cfg s ns method endpoint params body =
        ((match handleResponse r with
          | .ok d => .ok d
          | .apiErr e => .error (.apiError e)
          | .thrown m => .error (.error ("Network error: " ++ m))), ns1) ∧
      ns1.oracle = ns.oracle ∧ ns1.calls = ns.calls + 1 := by
  unfold apiClient buildUrl
  rw [hb]
  simp only [doFetch, hresp]
  rcases hh : handleResponse r with d | e | m <;>
    exact ⟨_, rfl, rfl, rfl⟩

/-- C1: at a 401 response from GET /users/me — with a JSON body, so that the
ApiError with status 401 really is what reaches the catch block — the catch
does not clear the tokens and does not return null: evaluating
`error instanceof ApiError` throws its TypeError, getCurrentUser rejects with
it, and both stored tokens survive. -/
theorem getCurrentUser_401_instanceof_bug :
    (getCurrentUser someCfg bothTokensStore (netOf resp401Json)).1
      = .error instanceofUndefinedMessage ∧
    getAuthToken
      (getCurrentUser someCfg bothTokensStore (netOf resp401Json)).2.1
      = some "A" ∧
    getRefreshToken
      (getCurrentUser someCfg bothTokensStore (netOf resp401Json)).2.1
      = some "R" :=
  ⟨rfl, rfl, rfl⟩

/-- A non-2xx response whose body is not valid JSON. -/
def resp500Text : HttpResponse :=
  ⟨500, "Internal Server Error", some "text/plain", "oops", none⟩

/-- C4: at a non-2xx response whose body is not valid JSON, handleResponse
does not raise the ApiError carrying the plain-text body that the claim
describes: `response.json()` consumes the body stream even though parsing
fails, so the `response.text()` fallback in the catch block rejects with a
TypeError, and apiClient wraps that into a generic network error carrying no
status. -/
theorem handleResponse_text_fallback_bug :
    handleResponse resp500Text = .thrown bodyUsedMessage ∧
    (apiClient someCfg emptyBrowserStore (netOf resp500Text)
      "GET" "/users/me" [] none).1
      = .error (.error ("Network error: " ++ bodyUsedMessage)) :=
  ⟨rfl, rfl⟩

/-- C2: at the claim's central scenario — status 401 with the CMS body
holding errors = [ message "Invalid credentials" ] — the mapping written in
the function's body would return the CMS message "Invalid credentials" in
preference to the status fallback, but extractErrorMessage as it runs throws
the `instanceof` TypeError before producing any message, on this and every
other input. -/
theorem extractErrorMessage_instanceof_bug :
    extractErrorMessage (.apiError ⟨"API Error: Unauthorized", some 401,
      some "Unauthorized", some (.json (.obj [("errors",
        .arr [.obj [("message", .str "Invalid credentials")]])]))⟩)
      = .error instanceofUndefinedMessage ∧
    extractErrorMessageBody (.apiError ⟨"API Error: Unauthorized", some 401,
      some "Unauthorized", some (.json (.obj [("errors",
        .arr [.obj [("message", .str "Invalid credentials")]])]))⟩)
      = .ok "Invalid credentials" :=
  ⟨rfl, rfl⟩

/-- A 2xx response declaring a JSON content type with the given parsed
body. -/
def okJsonResponse (j : Json) : HttpResponse :=
  ⟨200, "OK", some "application/json", "", some j⟩

/-- The token pair body the login endpoint returns. -/
def authTokensBody (t rt : String) : Json :=
  .obj [("data", .obj [("access_token", .str t), ("refresh_token", .str rt)])]

/-- The user record body the /users/me endpoint returns. -/
def userBody (uid uem : String) : Json :=
  .obj [("data", .obj [("id", .str uid), ("email", .str uem)])]

/-- A 2xx JSON response is returned parsed by handleResponse. -/
lemma handleResponse_okJson (j : Json) :
    handleResponse (okJsonResponse j) = .ok (.json j) := rfl

/-- C6: for every login against endpoints answering with a (non-empty) token
pair and then a user record, the store afterwards holds exactly those two
tokens and login returns the user with id and email taken from the /users/me
response. -/
theorem login_success (cfg : Config) (s : TokenStore) (ns : NetState)
    (c : LoginCredentials) (b t rt uid uem : String)
    (hw : s.hasWindow = true) (hf : s.storageFails = false)
    (hb : getApiBaseUrl cfg = .ok b)
    (htne : t ≠ "") (hrne : rt ≠ "")
    (h0 : ns.oracle ns.calls = .resp (okJsonResponse (authTokensBody t rt)))
    (h1 : ns.oracle (ns.calls + 1)
      = .resp (okJsonResponse (userBody uid uem))) :
    (login cfg s ns c).1 =
      .ok ⟨some (.str uid), some (.str uem), none, none, none, none⟩ ∧
    getAuthToken (login cfg s ns c).2.1 = some t ∧
    getRefreshToken (login cfg s ns c).2.1 = some rt := by
  obtain ⟨ns1, hapi1, ho1, hc1⟩ :=
    apiClient_resp cfg s ns "POST" "/auth/login" [] (some (loginBody c)) b _
      hb h0
  obtain ⟨ns2, hapi2, ho2, hc2⟩ :=
    apiClient_resp cfg (setRefreshToken (setAuthToken s t) rt) ns1 "GET"
      "/users/me" [] none b _ hb (by rw [ho1, hc1]; exact h1)
  have hT : (t != "") = true := by simp [htne]
  have hR : (rt != "") = true := by simp [hrne]
  have hrun : login cfg s ns c =
      (.ok ⟨some (.str uid), some (.str uem), none, none, none, none⟩,
       setRefreshToken (setAuthToken s t) rt, ns2) := by
    unfold login apiPost apiGet
    rw [hapi1]
    simp [handleResponse_okJson, authTokensBody, userBody, bodyVal, jsProp,
      jsPropNN, jsPropOpt, jsValTruthy, jsTruthy, List.find?, jsStringOfVal,
      jsStringOf, hT, hR, hapi2, readAuthUser, bind, Except.bind, pure,
      Except.pure, Except.instMonad]
  refine ⟨by rw [hrun], ?_, ?_⟩
  · rw [hrun]
    show getAuthToken (setRefreshToken (setAuthToken s t) rt) = some t
    rw [getAuthToken_setRefreshToken]
    exact getAuthToken_setAuthToken s t hw hf
  · rw [hrun]
    show getRefreshToken (setRefreshToken (setAuthToken s t) rt) = some rt
    exact getRefreshToken_setRefreshToken _ rt
      (by rw [setAuthToken_hasWindow]; exact hw)
      (by rw [setAuthToken_storageFails]; exact hf)

/-- The mocked network of the login scenario: first the token pair, then the
user record. -/
def loginNet : NetState :=
  ⟨fun n => if n == 0 then .resp (okJsonResponse (authTokensBody "T1" "R1"))
            else .resp (okJsonResponse (userBody "1" "a@b.com")), 0, []⟩

/-- C6 witness: the concrete login scenario of the claim. -/
theorem login_success_witness :
    (login someCfg emptyBrowserStore loginNet ⟨"a@b.com", "x"⟩).1 =
      .ok ⟨some (.str "1"), some (.str "a@b.com"), none, none, none, none⟩ ∧
    getAuthToken
      (login someCfg emptyBrowserStore loginNet ⟨"a@b.com", "x"⟩).2.1
      = some "T1" ∧
    getRefreshToken
      (login someCfg emptyBrowserStore loginNet ⟨"a@b.com", "x"⟩).2.1
      = some "R1" :=
  login_success someCfg emptyBrowserStore loginNet ⟨"a@b.com", "x"⟩
    "https://cms.example.com" "T1" "R1" "1" "a@b.com" rfl rfl rfl
    (by decide) (by decide) rfl rfl

end EEApp
